import Mathlib

/-!
Verification of the adaptive remediation decision engine of
ServerServiceManager against its specification.

The development shallowly embeds the Python sources:
* `app/error_learner.py`   — Pattern Normalizer and Known-Fix Store,
* `app/ml_error_model.py`  — Similarity Predictor,
* `app/smart_ai_fix.py`    — three-tier Fix Orchestrator,
* `app/ai_fix.py`          — legacy two-tier orchestrator.

External collaborators (the shell `CommandExecutor`, the Gemini
`FixSuggester`, wall-clock timestamps, and the fitted scikit-learn
vectorizer's cosine metric) are supplied as oracle parameters; everything
the repository itself computes is embedded executably.
-/

namespace SSM

/-! ## Character classes (ASCII, as exercised by the Python regexes) -/

/-- Python `str.lower` restricted to ASCII letters. -/
def lowerChar (c : Char) : Char :=
  if 'A' ≤ c ∧ c ≤ 'Z' then Char.ofNat (c.toNat + 32) else c

/-- `\d` — ASCII decimal digit. -/
def isDigitC (c : Char) : Bool := '0' ≤ c ∧ c ≤ '9'

/-- `\s` — Python whitespace (space, tab, newline, carriage return, form feed,
vertical tab). -/
def isWsC (c : Char) : Bool :=
  c = ' ' ∨ c = '\t' ∨ c = '\n' ∨ c = '\x0d' ∨ c = '\x0c' ∨ c = '\x0b'

/-- `\w` — word character (ASCII letter, digit or underscore). -/
def isWordC (c : Char) : Bool :=
  ('a' ≤ c ∧ c ≤ 'z') ∨ ('A' ≤ c ∧ c ≤ 'Z') ∨ isDigitC c ∨ c = '_'

/-- The character class `[\w/.-]` of the path regex. -/
def isPathC (c : Char) : Bool := isWordC c ∨ c = '/' ∨ c = '.' ∨ c = '-'

/-- The character class `[a-f0-9]` of the hash regex. -/
def isHexC (c : Char) : Bool := ('a' ≤ c ∧ c ≤ 'f') ∨ isDigitC c

/-- Uppercase ASCII letter (Python `str.isupper` on ASCII). -/
def isUpperC (c : Char) : Bool := 'A' ≤ c ∧ c ≤ 'Z'

/-- ASCII letter or digit (Python `str.isalnum` on ASCII). -/
def isAlnumC (c : Char) : Bool :=
  ('a' ≤ c ∧ c ≤ 'z') ∨ ('A' ≤ c ∧ c ≤ 'Z') ∨ isDigitC c

/-! ## Leftmost non-overlapping regex substitution (`re.sub`)

A matcher `m` reports, at the current position, the length of the (unique,
greedy) match of the pattern there, or `none`.  `rsubAux` then performs
Python's `re.sub` scan: try to match at each position, emit the replacement
and skip the match on success, otherwise copy one character.  Fuel is the
input length; every accepted match consumes at least one character. -/

def runLen (p : Char → Bool) (l : List Char) : Nat := (l.takeWhile p).length

def rsubAux (m : List Char → Option Nat) (repl : List Char) :
    Nat → List Char → List Char
  | _, [] => []
  | 0, l => l
  | Nat.succ fuel, c :: cs =>
    match m (c :: cs) with
    | some (Nat.succ k) => repl ++ rsubAux m repl fuel (cs.drop k)
    | _ => c :: rsubAux m repl fuel cs

def rsub (m : List Char → Option Nat) (repl : List Char) (l : List Char) :
    List Char :=
  rsubAux m repl l.length l

/-- Matcher for `\d{4}-\d{2}-\d{2} \d{2}:\d{2}:\d{2}` (19 characters). -/
def mTS : List Char → Option Nat
  | a :: b :: c :: d :: '-' :: e :: f :: '-' :: g :: h :: ' ' ::
      i :: j :: ':' :: k :: l :: ':' :: m :: n :: _ =>
    if isDigitC a ∧ isDigitC b ∧ isDigitC c ∧ isDigitC d ∧ isDigitC e ∧
       isDigitC f ∧ isDigitC g ∧ isDigitC h ∧ isDigitC i ∧ isDigitC j ∧
       isDigitC k ∧ isDigitC l ∧ isDigitC m ∧ isDigitC n
    then some 19 else none
  | _ => none

/-- Matcher for `/[\w/.-]+` — a slash followed by a nonempty greedy run. -/
def mPath : List Char → Option Nat
  | '/' :: cs => let k := runLen isPathC cs; if k = 0 then none else some (k + 1)
  | _ => none

/-- Matcher for `\d+` — a maximal nonempty digit run. -/
def mNum : List Char → Option Nat
  | c :: cs => if isDigitC c then some (runLen isDigitC (c :: cs)) else none
  | [] => none

/-- Matcher for `[a-f0-9]{8,}` — a maximal hex run of length at least 8. -/
def mHash : List Char → Option Nat
  | c :: cs =>
    if isHexC c then
      let k := runLen isHexC (c :: cs)
      if 8 ≤ k then some k else none
    else none
  | [] => none

/-- Matcher for `\s+` — a maximal nonempty whitespace run. -/
def mWS : List Char → Option Nat
  | c :: cs => if isWsC c then some (runLen isWsC (c :: cs)) else none
  | [] => none

/-- Python `str.strip` (whitespace at both ends). -/
def stripL (l : List Char) : List Char :=
  ((l.dropWhile isWsC).reverse.dropWhile isWsC).reverse

def tsSub (l : List Char) : List Char := rsub mTS "[TIMESTAMP]".data l
def pathSub (l : List Char) : List Char := rsub mPath "[PATH]".data l
def numSub (l : List Char) : List Char := rsub mNum "[NUMBER]".data l
def hashSub (l : List Char) : List Char := rsub mHash "[HASH]".data l
def wsSub (l : List Char) : List Char := rsub mWS " ".data l

/-- `ErrorLearner._extract_error_pattern` (error_learner.py lines 31–45):
lower-case, then replace ISO-like timestamps, path-like substrings, digit
runs and hex runs of length ≥ 8 by placeholder tokens, collapse whitespace
and strip.  `MLErrorModel._normalize_error` (ml_error_model.py lines
116–127) is the same code; see `normalizeError` below. -/
def extractErrorPattern (s : String) : String :=
  ⟨stripL (wsSub (hashSub (numSub (pathSub (tsSub (s.data.map lowerChar))))))⟩

/-- `MLErrorModel._normalize_error` — textually identical to
`ErrorLearner._extract_error_pattern`. -/
def normalizeError (s : String) : String := extractErrorPattern s

example : extractErrorPattern "Error 5" = "error [NUMBER]" := by decide
example : extractErrorPattern "error [NUMBER]" = "error [number]" := by decide
example : extractErrorPattern "connection refused" = "connection refused" := by
  decide

/-! ## Known-Fix Store (`app/error_learner.py`) -/

/-- Python `str.split()` with no argument: split on whitespace runs,
discarding empty pieces.  Fuel is the input length. -/
def splitWsAux : Nat → List Char → List (List Char)
  | _, [] => []
  | 0, _ => []
  | Nat.succ fuel, l =>
    let l' := l.dropWhile isWsC
    match l' with
    | [] => []
    | _ :: _ =>
      l'.takeWhile (fun c => !isWsC c) ::
        splitWsAux fuel (l'.dropWhile (fun c => !isWsC c))

def splitWs (s : String) : List String :=
  (splitWsAux s.data.length s.data).map List.asString

/-- The word set of a pattern (`set(pattern.split())`). -/
def wordSet (s : String) : Finset String := (splitWs s).toFinset

/-- `ErrorLearner._calculate_similarity` (lines 66–79): Jaccard index of the
two whitespace-split word sets, with `1.0` when both sets are empty and
`0.0` when exactly one is. -/
def calculateSimilarity (p1 p2 : String) : ℚ :=
  let words1 := wordSet p1
  let words2 := wordSet p2
  if words1 = ∅ ∧ words2 = ∅ then 1
  else if words1 = ∅ ∨ words2 = ∅ then 0
  else ((words1 ∩ words2).card : ℚ) / ((words1 ∪ words2).card : ℚ)

/-- A value of `error_patterns["successful_fixes"][pattern]`
(error_learner.py lines 88–96). -/
structure FixInfo where
  command : String
  service : String
  firstSeen : String
  lastUsed : String
  successCount : Nat
  stdout : String
  stderr : String
deriving DecidableEq

/-- One element of a `failed_attempts` list (lines 107–112). -/
structure FailedAttempt where
  command : String
  timestamp : String
  stdout : String
  stderr : String
deriving DecidableEq

/-- A value of `error_patterns["patterns"][pattern]` (lines 100–105). -/
structure FailedPattern where
  failedAttempts : List FailedAttempt
  service : String
  firstSeen : String
deriving DecidableEq

/-- Insertion-ordered association list modelling a Python `dict` with
`String` keys (Python 3.7+ dicts preserve insertion order). -/
def lookupA {α : Type} (l : List (String × α)) (k : String) : Option α :=
  (l.find? (fun kv => kv.1 == k)).map (·.2)

/-- `d[k] = v` on a Python dict: replace in place if the key exists,
otherwise append. -/
def setA {α : Type} (l : List (String × α)) (k : String) (v : α) :
    List (String × α) :=
  match l with
  | [] => [(k, v)]
  | (k', v') :: t => if k' == k then (k, v) :: t else (k', v') :: setA t k v

/-- The `ErrorLearner.error_patterns` dict-of-dicts:
`{"patterns": …, "successful_fixes": …}`. -/
structure LearnerState where
  successfulFixes : List (String × FixInfo)
  patterns : List (String × FailedPattern)
deriving DecidableEq

/-- Fresh store (`{"patterns": {}, "successful_fixes": {}}`), also the
result of a failed load. -/
def initLearner : LearnerState := ⟨[], []⟩

/-- `ErrorLearner.find_known_fix`, fuzzy phase (lines 57–64): first stored
record, in insertion order, whose similarity with the query pattern exceeds
`0.8`. -/
def firstSimilar (p : String) : List (String × FixInfo) → Option String
  | [] => none
  | (q, fi) :: t =>
    if calculateSimilarity p q > 8/10 then some fi.command else firstSimilar p t

/-- `ErrorLearner.find_known_fix` (lines 47–64): normalize the error, return
the exact-pattern match's command if present, else scan for the first
fuzzy match above `0.8`, else `None`.  (`log_event` calls are pure logging
and are elided.) -/
def findKnownFix (st : LearnerState) (serviceName errorMessage : String) :
    Option String :=
  let errorPattern := extractErrorPattern errorMessage
  match lookupA st.successfulFixes errorPattern with
  | some fixInfo => some fixInfo.command
  | none => firstSimilar errorPattern st.successfulFixes

/-- `ErrorLearner.learn_fix` (lines 81–115).  On success the record for the
pattern is assigned wholesale — including `success_count: 1` — whether or
not one already exists; on failure a `FailedAttempt` is appended under the
pattern.  `now` stands for `datetime.now().isoformat()`; `_save_knowledge`
is durable I/O with no in-memory effect and is elided. -/
def learnFix (now : String) (st : LearnerState)
    (serviceName errorMessage command : String) (success : Bool)
    (stdout stderr : String) : LearnerState :=
  let errorPattern := extractErrorPattern errorMessage
  if success then
    { st with
      successfulFixes := setA st.successfulFixes errorPattern
        { command := command, service := serviceName, firstSeen := now
          lastUsed := now, successCount := 1, stdout := stdout
          stderr := stderr } }
  else
    let base :=
      match lookupA st.patterns errorPattern with
      | some fp => fp
      | none => { failedAttempts := [], service := serviceName, firstSeen := now }
    { st with
      patterns := setA st.patterns errorPattern
        { base with
          failedAttempts := base.failedAttempts ++
            [{ command := command, timestamp := now, stdout := stdout
               stderr := stderr }] } }

/-- `ErrorLearner.update_success_count` (lines 117–123): increment the
success count and refresh `last_used` for an existing record; no-op when
the pattern is unknown. -/
def updateSuccessCount (now : String) (st : LearnerState)
    (errorPattern : String) : LearnerState :=
  match lookupA st.successfulFixes errorPattern with
  | some fixInfo =>
    { st with
      successfulFixes := setA st.successfulFixes errorPattern
        { fixInfo with successCount := fixInfo.successCount + 1
                       lastUsed := now } }
  | none => st

/-! ## Similarity Predictor (`app/ml_error_model.py`)

The scikit-learn vectorizer, classifier and label encoder are external
library objects.  The only piece of their behaviour the repository's
control flow observes is `_calculate_similarity`, which returns `0.0`
whenever `vectorizer.transform` raises (in particular, always, until the
vectorizer has been fitted by `_retrain_models`) and otherwise the TF-IDF
cosine similarity — supplied here as the oracle `sim`. -/

/-- Keyword vocabulary of `_extract_features` (ml_error_model.py lines
106–109). -/
def errorKeywords : List String :=
  ["error", "failed", "exception", "timeout", "connection", "permission",
   "denied", "not found", "invalid", "corrupt", "memory", "disk", "network"]

/-- `pat` is a prefix of `l`. -/
def startsWithL : List Char → List Char → Bool
  | [], _ => true
  | _ :: _, [] => false
  | p :: ps, c :: cs => p == c && startsWithL ps cs

/-- Python `pat in hay` on strings: `pat` occurs as a contiguous substring. -/
def containsSub (hay pat : List Char) : Bool :=
  match hay with
  | [] => startsWithL pat []
  | _ :: cs => startsWithL pat hay || containsSub cs pat

/-- `True` when `re.search(m, l)` finds a match anywhere in `l`. -/
def hasMatch (m : List Char → Option Nat) : List Char → Bool
  | [] => (m []).isSome
  | c :: cs => (m (c :: cs)).isSome || hasMatch m cs

/-- Matcher for `\d{4}-\d{2}-\d{2}` (the `has_timestamp` feature searches
for a date only, unlike the normalizer's full timestamp). -/
def mDate : List Char → Option Nat
  | a :: b :: c :: d :: '-' :: e :: f :: '-' :: g :: h :: _ =>
    if isDigitC a ∧ isDigitC b ∧ isDigitC c ∧ isDigitC d ∧ isDigitC e ∧
       isDigitC f ∧ isDigitC g ∧ isDigitC h
    then some 10 else none
  | _ => none

/-- Matcher for `/[^\s]+` — a slash followed by at least one non-space. -/
def mPathLoose : List Char → Option Nat
  | '/' :: cs =>
    let k := runLen (fun c => !isWsC c) cs
    if k = 0 then none else some (k + 1)
  | _ => none

/-- `MLErrorModel._extract_features` (lines 91–114): lexical/structural
features of the raw error message. -/
structure Features where
  errorLength : Nat
  serviceName : String
  hasTimestamp : Bool
  hasPath : Bool
  hasNumber : Bool
  hasHash : Bool
  wordCount : Nat
  uppercaseRatio : ℚ
  specialCharRatio : ℚ
  keywordFlags : List (String × Bool)
deriving DecidableEq

def extractFeatures (errorMessage serviceName : String) : Features :=
  let l := errorMessage.data
  { errorLength := l.length
    serviceName := serviceName
    hasTimestamp := hasMatch mDate l
    hasPath := hasMatch mPathLoose l
    hasNumber := hasMatch mNum l
    hasHash := hasMatch mHash l
    wordCount := (splitWs errorMessage).length
    uppercaseRatio :=
      if l.length = 0 then 0 else ((l.countP isUpperC : ℚ) / (l.length : ℚ))
    specialCharRatio :=
      if l.length = 0 then 0
      else ((l.countP (fun c => !isAlnumC c && !isWsC c) : ℚ) / (l.length : ℚ))
    keywordFlags :=
      errorKeywords.map (fun kw =>
        (kw, containsSub (l.map lowerChar) kw.data)) }

/-- One element of `self.error_data`, exactly the dict literal built by
`learn_from_attempt` (lines 183–193). -/
structure ErrorEntry where
  service : String
  error : String
  normalizedError : String
  fix : String
  success : Bool
  stdout : String
  stderr : String
  timestamp : String
  features : Features
deriving DecidableEq

/-- A Python value stored under a key of an `error_data` entry. -/
inductive PyVal where
  | s : String → PyVal
  | b : Bool → PyVal
  | fs : Features → PyVal
deriving DecidableEq

/-- Subscripting `error_entry[key]` on an entry appended by
`learn_from_attempt`: only the nine keys the dict literal writes exist;
every other key is a `KeyError`. -/
def ErrorEntry.getKey (e : ErrorEntry) : String → Option PyVal
  | "service" => some (.s e.service)
  | "error" => some (.s e.error)
  | "normalized_error" => some (.s e.normalizedError)
  | "fix" => some (.s e.fix)
  | "success" => some (.b e.success)
  | "stdout" => some (.s e.stdout)
  | "stderr" => some (.s e.stderr)
  | "timestamp" => some (.s e.timestamp)
  | "features" => some (.fs e.features)
  | _ => none

/-- An uncaught Python exception escaping an embedded operation. -/
inductive PyErr where
  | keyError : String → PyErr
deriving DecidableEq

/-- Per-command record inside `service_patterns[s]["successful_fixes"]`
(lines 209–217). -/
structure SPFix where
  count : Nat
  firstSeen : String
  lastUsed : String
deriving DecidableEq

/-- Element of `service_patterns[s]["failed_attempts"]` (lines 220–226). -/
structure SPFailed where
  command : String
  error : String
  timestamp : String
  stdout : String
  stderr : String
deriving DecidableEq

/-- `service_patterns[s]` (lines 198–203). -/
structure ServicePattern where
  totalErrors : Nat
  successfulFixes : List (String × SPFix)
  failedAttempts : List SPFailed
deriving DecidableEq

/-- The mutable state of `MLErrorModel`.  `vectorizerFitted` records
whether `self.vectorizer` has been successfully fitted; while it is
`false`, `vectorizer.transform` raises `NotFittedError`, which
`_calculate_similarity` swallows into `0.0`. -/
structure MLState where
  errorData : List ErrorEntry
  servicePatterns : List (String × ServicePattern)
  vectorizerFitted : Bool
deriving DecidableEq

/-- Fresh model state: empty corpus, nothing loaded from disk, vectorizer
unfitted. -/
def initMLState : MLState := ⟨[], [], false⟩

/-- External-collaborator oracles: `exec` is the `CommandExecutor`
(`subprocess.run`), `aiOutcome` the result of the deadline-bounded Gemini
worker, `sim` the fitted vectorizer's cosine similarity, `retrainOk`
whether the scikit-learn fits inside `_retrain_models` succeed, `now` the
`datetime.now().isoformat()` string, and `elapsed`/`wallTime` the
`time.time()` readings. -/
structure ExecResult where
  returncode : Int
  stdout : String
  stderr : String
deriving DecidableEq

inductive AIOutcome where
  | timeout : AIOutcome
  | noContent : AIOutcome
  | content : String → AIOutcome
deriving DecidableEq

structure Oracles where
  exec : String → ExecResult
  aiOutcome : AIOutcome
  sim : String → String → ℚ
  retrainOk : Bool
  now : String
  elapsed : ℚ
  wallTime : ℚ

/-- `MLErrorModel._calculate_similarity` (lines 129–137): TF-IDF cosine of
the two strings under the current vectorizer; any exception — in
particular `NotFittedError` while the vectorizer is unfitted — yields
`0.0`. -/
def calcSimML (o : Oracles) (st : MLState) (e1 e2 : String) : ℚ :=
  if st.vectorizerFitted then o.sim e1 e2 else 0

/-- Candidate dict appended to `similar_fixes` (lines 154–159). -/
structure Candidate where
  fix : String
  similarity : ℚ
  successRate : PyVal
  lastUsed : PyVal
deriving DecidableEq

/-- The result dict of `predict_fix` (lines 167–172). -/
structure Prediction where
  command : String
  confidence : ℚ
  successRate : PyVal
  method : String
deriving DecidableEq

/-- Coercion used by the sort key `x.similarity*0.7 + x.success_rate*0.3`.
No entry ever stores a numeric `success_rate` (the loop raises `KeyError`
first, see `collectSimilar`), so this branch of the code is unreachable;
in Python a reachable non-numeric value would raise `TypeError`. -/
def pvNum : PyVal → ℚ
  | .b true => 1
  | .b false => 0
  | _ => 0

/-- The `for error_entry in self.error_data` loop of `predict_fix` (lines
150–159): same-service entries scoring above `0.7` are turned into
candidate dicts; building the dict evaluates `error_entry['success_rate']`
(and then `error_entry['last_used']`), which no stored entry possesses. -/
def collectSimilar (o : Oracles) (st : MLState) (serviceName ne : String) :
    List ErrorEntry → Except PyErr (List Candidate)
  | [] => .ok []
  | e :: rest =>
    if e.service == serviceName then
      let s := calcSimML o st ne e.normalizedError
      if s > 7/10 then
        match e.getKey "success_rate" with
        | none => .error (.keyError "success_rate")
        | some sr =>
          match e.getKey "last_used" with
          | none => .error (.keyError "last_used")
          | some lu =>
            (collectSimilar o st serviceName ne rest).map
              (fun cands => ⟨e.fix, s, sr, lu⟩ :: cands)
      else collectSimilar o st serviceName ne rest
    else collectSimilar o st serviceName ne rest

/-- Descending sort key of line 163. -/
def candKey (c : Candidate) : ℚ := c.similarity * (7/10) + pvNum c.successRate * (3/10)

/-- Stable descending sort (Python `list.sort(key=…, reverse=True)`). -/
def insertCand (c : Candidate) : List Candidate → List Candidate
  | [] => [c]
  | d :: t => if candKey c > candKey d then c :: d :: t else d :: insertCand c t

def sortCands : List Candidate → List Candidate
  | [] => []
  | c :: t => insertCand c (sortCands t)

/-- `MLErrorModel.predict_fix` (lines 139–174): `None` on an empty corpus;
otherwise scan same-service entries for similarity above `0.7`, rank the
survivors by `0.7*similarity + 0.3*success_rate`, and return the best as a
prediction dict.  Exceptions raised while building candidates propagate to
the caller — `predict_fix` has no handler. -/
def predictFix (o : Oracles) (st : MLState) (serviceName errorMessage : String) :
    Except PyErr (Option Prediction) :=
  if st.errorData.isEmpty then .ok none
  else
    let normalizedError := normalizeError errorMessage
    let _features := extractFeatures errorMessage serviceName
    match collectSimilar o st serviceName normalizedError st.errorData with
    | .error e => .error e
    | .ok [] => .ok none
    | .ok (c :: cs) =>
      match sortCands (c :: cs) with
      | [] => .ok none
      | best :: _ =>
        .ok (some { command := best.fix, confidence := best.similarity
                    successRate := best.successRate, method := "ml_prediction" })

/-- `MLErrorModel._retrain_models` (lines 235–296): a no-op below 5 corpus
entries; otherwise it reads the corpus, refits the vectorizer, label
encoder and classifier, and catches any exception.  The corpus itself is
only read.  Of the fitted artifacts, only the vectorizer's fitted-ness is
observable (through `_calculate_similarity`). -/
def retrainModels (o : Oracles) (st : MLState) : MLState :=
  if st.errorData.length < 5 then st
  else if o.retrainOk then { st with vectorizerFitted := true }
  else st

/-- The entry under construction in `learn_from_attempt` (lines 183–193). -/
def mkEntry (o : Oracles) (serviceName errorMessage command : String)
    (success : Bool) (stdout stderr : String) : ErrorEntry :=
  { service := serviceName, error := errorMessage
    normalizedError := normalizeError errorMessage, fix := command
    success := success, stdout := stdout, stderr := stderr
    timestamp := o.now
    features := extractFeatures errorMessage serviceName }

/-- Lines 195–226 of `learn_from_attempt`: append the training example and
update `service_patterns`, before the retrain check. -/
def learnAppend (o : Oracles) (st : MLState)
    (serviceName errorMessage command : String) (success : Bool)
    (stdout stderr : String) : MLState :=
  let entry := mkEntry o serviceName errorMessage command success stdout stderr
  let sp0 :=
    match lookupA st.servicePatterns serviceName with
    | some sp => sp
    | none => { totalErrors := 0, successfulFixes := [], failedAttempts := [] }
  let sp1 := { sp0 with totalErrors := sp0.totalErrors + 1 }
  let sp2 :=
    if success then
      let f0 :=
        match lookupA sp1.successfulFixes command with
        | some f => f
        | none => { count := 0, firstSeen := o.now, lastUsed := o.now }
      { sp1 with
        successfulFixes := setA sp1.successfulFixes command
          { f0 with count := f0.count + 1, lastUsed := o.now } }
    else
      { sp1 with
        failedAttempts := sp1.failedAttempts ++
          [{ command := command, error := errorMessage, timestamp := o.now
             stdout := stdout, stderr := stderr }] }
  { st with
    errorData := st.errorData ++ [entry]
    servicePatterns := setA st.servicePatterns serviceName sp2 }

/-- `MLErrorModel.learn_from_attempt` (lines 176–233): append the example,
update per-service stats, and retrain when the corpus size has become a
multiple of 10 (`len(self.error_data) % 10 == 0`).  `_save_models` is
durable I/O with no in-memory effect and is elided. -/
def learnFromAttempt (o : Oracles) (st : MLState)
    (serviceName errorMessage command : String) (success : Bool)
    (stdout stderr : String) : MLState :=
  let st1 := learnAppend o st serviceName errorMessage command success stdout stderr
  if st1.errorData.length % 10 == 0 then retrainModels o st1 else st1

/-! ## Three-tier Fix Orchestrator (`app/smart_ai_fix.py`)

`SmartAIFix.fix_service` consults the Similarity Predictor, then the
Known-Fix Store, then the Gemini fallback, executes the selected command
and feeds the outcome back into both learning components.  The predictor's
response is passed in as `pred` (the orchestrator treats `predict_fix`
purely as a supplier of an optional prediction dict, and an exception from
it propagates unhandled); `fixServiceFull` below wires in the embedded
`predictFix`.  The returned `events` trace records, in program order, each
tier consulted and each `subprocess.run` invocation; `log` collects the
`log_event` messages of the orchestrator and of `_call_ai_for_fix`. -/

/-- Entry of `self.fix_history` (`_record_fix_attempt`, lines 149–160). -/
structure FixAttempt where
  service : String
  error : String
  command : String
  success : Bool
  executionTime : ℚ
  method : String
  timestamp : ℚ
deriving DecidableEq

/-- `SmartAIFix`'s own state: the two learning components' states plus
`performance_metrics` and `fix_history`. -/
structure SysState where
  ml : MLState
  learner : LearnerState
  mlPredictions : Nat
  aiCalls : Nat
  successfulFixes : Nat
  failedFixes : Nat
  fixHistory : List FixAttempt
deriving DecidableEq

def initSys : SysState := ⟨initMLState, initLearner, 0, 0, 0, 0, []⟩

inductive Event where
  | predictTier : Event
  | knownFixTier : Event
  | aiTier : Event
  | execRun : String → Event
deriving DecidableEq

structure FixOutcome where
  state : SysState
  result : Option String × String × String
  events : List Event
  log : List String
deriving DecidableEq

/-- Python `str.strip()` on a `String`. -/
def stripStr (s : String) : String := ⟨stripL s.data⟩

/-- `SmartAIFix._call_ai_for_fix` (lines 118–147): run the Gemini worker
under a 30-second join; on timeout terminate it and return `None`; with no
usable content (`None` or the empty string from the queue) return `None`;
otherwise return the stripped text with empty stdout/stderr. -/
def callAiForFix (o : Oracles) (serviceName : String) :
    Option (String × String × String) × List String :=
  match o.aiOutcome with
  | .timeout => (none, ["Gemini fix timed out for " ++ serviceName])
  | .noContent =>
    (none, ["Gemini fix failed for " ++ serviceName ++ ": No response content"])
  | .content c =>
    if c == "" then
      (none, ["Gemini fix failed for " ++ serviceName ++ ": No response content"])
    else
      let command := stripStr c
      (some (command, "", ""),
       ["Gemini suggested fix for " ++ serviceName ++ ": " ++ command])

/-- Shared tail of the three execution branches: bump the
successful/failed counters (lines 60–63, 82–85, 106–109). -/
def bumpFixCounters (st : SysState) (success : Bool) : SysState :=
  if success then { st with successfulFixes := st.successfulFixes + 1 }
  else { st with failedFixes := st.failedFixes + 1 }

/-- Steps 2 and 3 of `SmartAIFix.fix_service` (lines 70–116), reached when
the ML-prediction gate of line 48 does not fire: try the Known-Fix Store,
then the Gemini fallback. -/
def fixServiceStep2 (o : Oracles) (st : SysState)
    (serviceName errorMessage : String) : Except PyErr FixOutcome :=
  match findKnownFix st.learner serviceName errorMessage with
  | some knownFix =>
    -- Step 2: known-fix branch (lines 73–90)
    let r := o.exec knownFix
    let success := r.returncode == 0
    let st1 :=
      { st with ml := learnFromAttempt o st.ml serviceName errorMessage
                        knownFix success r.stdout r.stderr
                learner := learnFix o.now st.learner serviceName errorMessage
                        knownFix success r.stdout r.stderr }
    let st2 := bumpFixCounters st1 success
    let st3 :=
      { st2 with fixHistory := st2.fixHistory ++
          [{ service := serviceName, error := errorMessage, command := knownFix
             success := success, executionTime := o.elapsed
             method := "known_fix", timestamp := o.wallTime }] }
    .ok { state := st3, result := (some knownFix, r.stdout, r.stderr)
          events := [.predictTier, .knownFixTier, .execRun knownFix]
          log := ["Using known fix for " ++ serviceName] }
  | none =>
    -- Step 3: AI fallback (lines 92–116)
    let st0 := { st with aiCalls := st.aiCalls + 1 }
    let (aiResult, aiLog) := callAiForFix o serviceName
    match aiResult with
    | some (command, stdout, stderr) =>
      let success := (o.exec command).returncode == 0
      let st1 :=
        { st0 with ml := learnFromAttempt o st0.ml serviceName errorMessage
                          command success stdout stderr
                   learner := learnFix o.now st0.learner serviceName errorMessage
                          command success stdout stderr }
      let st2 := bumpFixCounters st1 success
      let st3 :=
        { st2 with fixHistory := st2.fixHistory ++
            [{ service := serviceName, error := errorMessage, command := command
               success := success, executionTime := o.elapsed
               method := "ai_fallback", timestamp := o.wallTime }] }
      .ok { state := st3
            -- the returned stdout/stderr are the AI tuple's, not the
            -- executor's (lines 99–114)
            result := (some command, stdout, stderr)
            events := [.predictTier, .knownFixTier, .aiTier, .execRun command]
            log := ["Using AI fallback for " ++ serviceName] ++ aiLog }
    | none =>
      .ok { state := st0, result := (none, "", "Failed to generate fix")
            events := [.predictTier, .knownFixTier, .aiTier]
            log := ["Using AI fallback for " ++ serviceName] ++ aiLog }

/-- `SmartAIFix.fix_service` (lines 39–116).  `pred` is the value (or
uncaught exception) produced by the `ml_model.predict_fix` call of line
46. -/
def fixService (o : Oracles) (pred : Except PyErr (Option Prediction))
    (st : SysState) (serviceName errorMessage : String) :
    Except PyErr FixOutcome :=
  match pred with
  | .error e => .error e
  | .ok mlPrediction =>
    match mlPrediction with
    | some p =>
      if p.confidence > 8/10 then
        -- Step 1: ML prediction branch (lines 48–68)
        let command := p.command
        let r := o.exec command
        let success := r.returncode == 0
        let st1 :=
          { st with mlPredictions := st.mlPredictions + 1
                    ml := learnFromAttempt o st.ml serviceName errorMessage
                            command success r.stdout r.stderr
                    learner := learnFix o.now st.learner serviceName errorMessage
                            command success r.stdout r.stderr }
        let st2 := bumpFixCounters st1 success
        let st3 :=
          { st2 with fixHistory := st2.fixHistory ++
              [{ service := serviceName, error := errorMessage, command := command
                 success := success, executionTime := o.elapsed
                 method := "ml_prediction", timestamp := o.wallTime }] }
        .ok { state := st3, result := (some command, r.stdout, r.stderr)
              events := [.predictTier, .execRun command]
              log := ["Using ML prediction for " ++ serviceName] }
      else fixServiceStep2 o st serviceName errorMessage
    | none => fixServiceStep2 o st serviceName errorMessage

/-- The fully wired orchestrator call: line 46 feeds `predict_fix`'s actual
value into the decision pipeline. -/
def fixServiceFull (o : Oracles) (st : SysState)
    (serviceName errorMessage : String) : Except PyErr FixOutcome :=
  fixService o (predictFix o st.ml serviceName errorMessage) st
    serviceName errorMessage

def fixEvents : Except PyErr FixOutcome → List Event
  | .ok out => out.events
  | .error _ => []

/-! ## Legacy two-tier orchestrator (`app/ai_fix.py`)

`ai_fix_service` (lines 37–73) consults only the Known-Fix Store and the
Gemini fallback.  Its reuse path calls `update_success_count`; its timeout
and no-content paths return `(None, None, reason)` with distinct reason
strings.  The returned stdout is `None` in those paths, hence
`Option String`. -/

def aiFixService (o : Oracles) (st : LearnerState)
    (serviceName errorMessage : String) :
    LearnerState × (Option String × Option String × String) × List Event × List String :=
  match findKnownFix st serviceName errorMessage with
  | some knownFix =>
    let r := o.exec knownFix
    let errorPattern := extractErrorPattern errorMessage
    let st' := updateSuccessCount o.now st errorPattern
    (st', (some knownFix, some r.stdout, r.stderr),
     [.knownFixTier, .execRun knownFix],
     ["Using known fix for " ++ serviceName ++ ": " ++ knownFix])
  | none =>
    match o.aiOutcome with
    | .timeout =>
      (st, (none, none, "Gemini API call timed out"), [.aiTier],
       ["Gemini fix timed out for " ++ serviceName])
    | .noContent =>
      (st, (none, none, "No response content"), [.aiTier],
       ["Gemini fix failed for " ++ serviceName ++ ": No response content"])
    | .content c =>
      if c == "" then
        (st, (none, none, "No response content"), [.aiTier],
         ["Gemini fix failed for " ++ serviceName ++ ": No response content"])
      else
        let command := stripStr c
        let r := o.exec command
        let success := r.returncode == 0
        let st' := learnFix o.now st serviceName errorMessage command success
                     r.stdout r.stderr
        (st', (some command, some r.stdout, r.stderr),
         [.aiTier, .execRun command],
         ["Gemini suggested fix for " ++ serviceName ++ ": " ++ command])

/-! ## C9 — algebraic properties of the Known-Fix Store similarity -/

/-- **C9.** `ErrorLearner._calculate_similarity` is the Jaccard index over
whitespace-split token sets: symmetric, bounded in `[0,1]`, equal to `1`
on any pattern compared with itself (in particular any non-empty pattern,
and the both-empty case), and equal to `0` when exactly one of the two
patterns has an empty token set (for normalized patterns, which are
stripped, an empty token set is exactly the empty pattern). -/
theorem c9_similarity_jaccard :
    (∀ p q, calculateSimilarity p q = calculateSimilarity q p) ∧
    (∀ p q, 0 ≤ calculateSimilarity p q ∧ calculateSimilarity p q ≤ 1) ∧
    (∀ p, calculateSimilarity p p = 1) ∧
    (∀ p q, wordSet p = ∅ → wordSet q = ∅ → calculateSimilarity p q = 1) ∧
    (∀ p q, wordSet p = ∅ → wordSet q ≠ ∅ → calculateSimilarity p q = 0) ∧
    (∀ p q, wordSet p ≠ ∅ → wordSet q = ∅ → calculateSimilarity p q = 0) := by
  have hsub : ∀ p q : String,
      (wordSet p ∩ wordSet q) ⊆ (wordSet p ∪ wordSet q) :=
    fun p q => Finset.inter_subset_left.trans Finset.subset_union_left
  refine ⟨?_, ?_, ?_, ?_, ?_, ?_⟩
  · intro p q
    by_cases h1 : wordSet p = ∅ <;> by_cases h2 : wordSet q = ∅ <;>
      simp [calculateSimilarity, h1, h2, Finset.inter_comm, Finset.union_comm]
  · intro p q
    by_cases h1 : wordSet p = ∅ <;> by_cases h2 : wordSet q = ∅ <;>
      simp only [calculateSimilarity, h1, h2, if_true, if_false, and_self,
        and_true, and_false, false_and, true_or, or_true, or_false, false_or,
        if_pos, ite_true, ite_false]
    · norm_num
    · norm_num
    · norm_num
    · have hu : (0 : ℚ) < ((wordSet p ∪ wordSet q).card : ℚ) := by
        have : (wordSet p ∪ wordSet q).Nonempty := by
          rcases Finset.nonempty_iff_ne_empty.mpr h1 with ⟨a, ha⟩
          exact ⟨a, Finset.mem_union_left _ ha⟩
        exact_mod_cast Finset.card_pos.mpr this
      constructor
      · positivity
      · rw [div_le_one hu]
        exact_mod_cast Finset.card_le_card (hsub p q)
  · intro p
    by_cases h : wordSet p = ∅
    · simp [calculateSimilarity, h]
    · have hc : ((wordSet p).card : ℚ) ≠ 0 := by
        have : (wordSet p).card ≠ 0 := by
          simpa [Finset.card_eq_zero] using h
        exact_mod_cast this
      simp [calculateSimilarity, h, Finset.inter_self, Finset.union_self,
        div_self hc]
  · intro p q h1 h2; simp [calculateSimilarity, h1, h2]
  · intro p q h1 h2; simp [calculateSimilarity, h1, h2]
  · intro p q h1 h2; simp [calculateSimilarity, h1, h2]

/-- Witness for C9 at concrete patterns: symmetry on two real patterns,
self-similarity `1` on a non-empty pattern, `1` on two empty patterns, and
`0` when exactly one side is empty. -/
theorem c9_similarity_jaccard_witness :
    calculateSimilarity "connection refused" "refused connection x" =
      calculateSimilarity "refused connection x" "connection refused" ∧
    calculateSimilarity "connection refused" "connection refused" = 1 ∧
    calculateSimilarity "" "" = 1 ∧
    calculateSimilarity "" "connection refused" = 0 ∧
    calculateSimilarity "connection refused" "" = 0 :=
  ⟨c9_similarity_jaccard.1 _ _,
   c9_similarity_jaccard.2.2.1 _,
   c9_similarity_jaccard.2.2.2.1 "" "" (by decide) (by decide),
   c9_similarity_jaccard.2.2.2.2.1 "" "connection refused" (by decide)
     (by decide),
   c9_similarity_jaccard.2.2.2.2.2 "connection refused" "" (by decide)
     (by decide)⟩

/-! ## C1 — the success count is reset, not incremented, on reuse -/

/-- **C1 (refuted).** Replaying the Orchestrator's own call sequence on the
Known-Fix Store: a first successful `learn_fix` stores the record with
`success_count = 1`; an explicit `update_success_count` bumps it to `2`;
but the next successful `learn_fix` for the same pattern — exactly what
`SmartAIFix.fix_service` performs when the cached fix is reused
successfully (smart_ai_fix.py line 80) — overwrites the whole record,
resetting the count to `1`.  The count is therefore not monotonically
non-decreasing and reuse does not increment it from 1 to 2. -/
theorem c1_success_count_reset :
    (lookupA (learnFix "t1" initLearner "web" "connection refused"
        "systemctl restart web" true "" "").successfulFixes
        "connection refused").map FixInfo.successCount = some 1 ∧
    (lookupA (updateSuccessCount "t2"
        (learnFix "t1" initLearner "web" "connection refused"
          "systemctl restart web" true "" "")
        "connection refused").successfulFixes
        "connection refused").map FixInfo.successCount = some 2 ∧
    (lookupA (learnFix "t3"
        (updateSuccessCount "t2"
          (learnFix "t1" initLearner "web" "connection refused"
            "systemctl restart web" true "" "")
          "connection refused")
        "web" "connection refused" "systemctl restart web" true "" ""
        ).successfulFixes
        "connection refused").map FixInfo.successCount = some 1 := by
  decide

/-! ## C2 — normalization is not idempotent on placeholder-bearing input -/

/-- **C2 (refuted).** Re-normalizing lower-cases the inserted placeholder
token: `normalize("error 5") = "error [NUMBER]"` but
`normalize(normalize("error 5")) = "error [number]"`. -/
theorem c2_normalize_not_idempotent :
    extractErrorPattern "error 5" = "error [NUMBER]" ∧
    extractErrorPattern (extractErrorPattern "error 5") = "error [number]" ∧
    extractErrorPattern (extractErrorPattern "error 5") ≠
      extractErrorPattern "error 5" := by
  decide

/-! ## C5 — exact match before fuzzy match in `find_known_fix` -/

theorem firstSimilar_eq_none (p : String) :
    ∀ l : List (String × FixInfo),
      (∀ r ∈ l, calculateSimilarity p r.1 ≤ 8/10) → firstSimilar p l = none := by
  intro l
  induction l with
  | nil => intro _; rfl
  | cons r t ih =>
    intro h
    have hr := h r (List.mem_cons_self r t)
    have : ¬ calculateSimilarity p r.1 > 8/10 := not_lt.mpr hr
    cases r with
    | mk q fi =>
      simp only [firstSimilar, if_neg this]
      exact ih (fun x hx => h x (List.mem_cons_of_mem _ hx))

theorem firstSimilar_eq_of_first (p : String) :
    ∀ (pre : List (String × FixInfo)) (q : String) (fi : FixInfo)
      (post : List (String × FixInfo)),
      calculateSimilarity p q > 8/10 →
      (∀ r ∈ pre, ¬ calculateSimilarity p r.1 > 8/10) →
      firstSimilar p (pre ++ (q, fi) :: post) = some fi.command := by
  intro pre
  induction pre with
  | nil =>
    intro q fi post hq _
    simp [firstSimilar, hq]
  | cons r t ih =>
    intro q fi post hq hpre
    have hr := hpre r (List.mem_cons_self r t)
    cases r with
    | mk q' fi' =>
      simp only [List.cons_append, firstSimilar, if_neg hr]
      exact ih q fi post hq (fun x hx => hpre x (List.mem_cons_of_mem _ hx))

/-- **C5.** `find_known_fix` returns the exact normalized-pattern match's
cached command first; only in its absence does it scan, in insertion
order, for the first record whose Jaccard similarity exceeds `0.8`; it
returns `None` when no exact match exists and every record scores at most
`0.8`. -/
theorem c5_find_exact_before_fuzzy (st : LearnerState) (svc err : String) :
    (∀ fi, lookupA st.successfulFixes (extractErrorPattern err) = some fi →
      findKnownFix st svc err = some fi.command) ∧
    (lookupA st.successfulFixes (extractErrorPattern err) = none →
      ((∀ (pre : List (String × FixInfo)) (q : String) (fi : FixInfo)
          (post : List (String × FixInfo)),
          st.successfulFixes = pre ++ (q, fi) :: post →
          calculateSimilarity (extractErrorPattern err) q > 8/10 →
          (∀ r ∈ pre,
            ¬ calculateSimilarity (extractErrorPattern err) r.1 > 8/10) →
          findKnownFix st svc err = some fi.command) ∧
       ((∀ r ∈ st.successfulFixes,
          calculateSimilarity (extractErrorPattern err) r.1 ≤ 8/10) →
          findKnownFix st svc err = none))) := by
  constructor
  · intro fi h
    simp [findKnownFix, h]
  · intro h
    constructor
    · intro pre q fi post hsplit hq hpre
      simp only [findKnownFix, h]
      rw [hsplit]
      exact firstSimilar_eq_of_first _ pre q fi post hq hpre
    · intro hall
      simp only [findKnownFix, h]
      exact firstSimilar_eq_none _ _ hall

/-- Evaluate a Jaccard similarity by computing the (decidable) word-set
cardinalities and finishing the rational arithmetic numerically. -/
theorem calculateSimilarity_eval (p q : String) (i u : Nat)
    (h1 : wordSet p ≠ ∅) (h2 : wordSet q ≠ ∅)
    (hi : (wordSet p ∩ wordSet q).card = i)
    (hu : (wordSet p ∪ wordSet q).card = u) :
    calculateSimilarity p q = (i : ℚ) / (u : ℚ) := by
  simp only [calculateSimilarity]
  rw [if_neg (by simp [h1, h2]), if_neg (by simp [h1, h2]), hi, hu]

/-- Witness for C5 at a concrete store: the exact branch wins, the fuzzy
branch picks the first record above `0.8`, and an all-below store yields
`None`. -/
theorem c5_find_exact_before_fuzzy_witness :
    findKnownFix
      ⟨[("connection refused",
         ⟨"cmd-exact", "web", "t", "t", 1, "", ""⟩),
        ("connection refused now",
         ⟨"cmd-fuzzy", "web", "t", "t", 1, "", ""⟩)], []⟩
      "web" "Connection  REFUSED" = some "cmd-exact" ∧
    findKnownFix
      ⟨[("totally different words here",
         ⟨"cmd-a", "web", "t", "t", 1, "", ""⟩),
        ("connection refused by host peer x",
         ⟨"cmd-b", "web", "t", "t", 1, "", ""⟩)], []⟩
      "web" "connection refused by host peer x y" = some "cmd-b" ∧
    findKnownFix
      ⟨[("totally different words here",
         ⟨"cmd-a", "web", "t", "t", 1, "", ""⟩)], []⟩
      "web" "connection refused" = none := by
  have hb : calculateSimilarity
      (extractErrorPattern "connection refused by host peer x y")
      "connection refused by host peer x" = (6 : ℚ) / 7 :=
    calculateSimilarity_eval _ _ 6 7 (by decide) (by decide) (by decide)
      (by decide)
  have ha : calculateSimilarity
      (extractErrorPattern "connection refused by host peer x y")
      "totally different words here" = (0 : ℚ) / 11 :=
    calculateSimilarity_eval _ _ 0 11 (by decide) (by decide) (by decide)
      (by decide)
  have hc : calculateSimilarity (extractErrorPattern "connection refused")
      "totally different words here" = (0 : ℚ) / 6 :=
    calculateSimilarity_eval _ _ 0 6 (by decide) (by decide) (by decide)
      (by decide)
  refine ⟨?_, ?_, ?_⟩
  · exact (c5_find_exact_before_fuzzy
      ⟨[("connection refused", ⟨"cmd-exact", "web", "t", "t", 1, "", ""⟩),
        ("connection refused now", ⟨"cmd-fuzzy", "web", "t", "t", 1, "", ""⟩)],
       []⟩ "web" "Connection  REFUSED").1
      ⟨"cmd-exact", "web", "t", "t", 1, "", ""⟩ (by decide)
  · exact ((c5_find_exact_before_fuzzy
      ⟨[("totally different words here", ⟨"cmd-a", "web", "t", "t", 1, "", ""⟩),
        ("connection refused by host peer x",
         ⟨"cmd-b", "web", "t", "t", 1, "", ""⟩)], []⟩
      "web" "connection refused by host peer x y").2 (by decide)).1
      [("totally different words here", ⟨"cmd-a", "web", "t", "t", 1, "", ""⟩)]
      "connection refused by host peer x"
      ⟨"cmd-b", "web", "t", "t", 1, "", ""⟩ [] rfl
      (by rw [hb]; norm_num)
      (by
        intro r hr
        simp only [List.mem_singleton] at hr
        subst hr
        rw [ha]; norm_num)
  · exact ((c5_find_exact_before_fuzzy
      ⟨[("totally different words here", ⟨"cmd-a", "web", "t", "t", 1, "", ""⟩)],
       []⟩ "web" "connection refused").2 (by decide)).2
      (by
        intro r hr
        simp only [List.mem_singleton] at hr
        subst hr
        rw [hc]; norm_num)

/-! ## Frame lemmas for `learn_from_attempt` and `_retrain_models` -/

theorem learnAppend_errorData (o : Oracles) (st : MLState)
    (svc err cmd : String) (success : Bool) (so se : String) :
    (learnAppend o st svc err cmd success so se).errorData =
      st.errorData ++ [mkEntry o svc err cmd success so se] := rfl

theorem learnAppend_fitted (o : Oracles) (st : MLState)
    (svc err cmd : String) (success : Bool) (so se : String) :
    (learnAppend o st svc err cmd success so se).vectorizerFitted =
      st.vectorizerFitted := rfl

theorem retrainModels_errorData (o : Oracles) (st : MLState) :
    (retrainModels o st).errorData = st.errorData := by
  unfold retrainModels; split_ifs <;> rfl

theorem retrainModels_noop (o : Oracles) (st : MLState)
    (h : st.errorData.length < 5) : retrainModels o st = st := by
  unfold retrainModels
  rw [if_pos h]

/-- `learn_from_attempt` factored: append/update, then retrain exactly when
the new corpus size is a multiple of 10. -/
theorem learnFromAttempt_eq (o : Oracles) (st : MLState)
    (svc err cmd : String) (success : Bool) (so se : String) :
    learnFromAttempt o st svc err cmd success so se =
      (if (st.errorData.length + 1) % 10 = 0
       then retrainModels o (learnAppend o st svc err cmd success so se)
       else learnAppend o st svc err cmd success so se) := by
  simp only [learnFromAttempt, learnAppend_errorData, List.length_append,
    List.length_singleton, beq_iff_eq]

theorem learnFromAttempt_errorData (o : Oracles) (st : MLState)
    (svc err cmd : String) (success : Bool) (so se : String) :
    (learnFromAttempt o st svc err cmd success so se).errorData =
      st.errorData ++ [mkEntry o svc err cmd success so se] := by
  rw [learnFromAttempt_eq]
  split_ifs
  · rw [retrainModels_errorData, learnAppend_errorData]
  · rw [learnAppend_errorData]

/-! ## C8 — retrain trigger, no-op threshold, and corpus immutability -/

/-- **C8.** `learn_from_attempt` appends exactly one training example and
invokes `_retrain_models` exactly when the resulting corpus size is a
multiple of 10; `_retrain_models` is a no-op when fewer than 5 examples
exist and never mutates the corpus (the training data after any retrain
equals the training data before). -/
theorem c8_retrain_trigger_frame (o : Oracles) (st : MLState)
    (svc err cmd : String) (success : Bool) (so se : String) :
    learnFromAttempt o st svc err cmd success so se =
      (if (st.errorData.length + 1) % 10 = 0
       then retrainModels o (learnAppend o st svc err cmd success so se)
       else learnAppend o st svc err cmd success so se) ∧
    (learnFromAttempt o st svc err cmd success so se).errorData =
      st.errorData ++ [mkEntry o svc err cmd success so se] ∧
    (st.errorData.length < 5 → retrainModels o st = st) ∧
    (retrainModels o st).errorData = st.errorData :=
  ⟨learnFromAttempt_eq o st svc err cmd success so se,
   learnFromAttempt_errorData o st svc err cmd success so se,
   retrainModels_noop o st,
   retrainModels_errorData o st⟩

/-- A concrete oracle assignment used by witnesses: successful executor,
Gemini that times out, cosine similarity constantly `1`, successful
scikit-learn fits. -/
def oW : Oracles :=
  { exec := fun _ => ⟨0, "", ""⟩, aiOutcome := .timeout, sim := fun _ _ => 1
    retrainOk := true, now := "t", elapsed := 0, wallTime := 0 }

/-- Witness for C8: on the fresh (sub-5-example) store retraining is a
no-op, and a single learn appends exactly its training example. -/
theorem c8_retrain_trigger_frame_witness :
    retrainModels oW initMLState = initMLState ∧
    (learnFromAttempt oW initMLState "web" "connection refused"
        "systemctl restart web" true "" "").errorData =
      initMLState.errorData ++
        [mkEntry oW "web" "connection refused" "systemctl restart web"
          true "" ""] :=
  ⟨(c8_retrain_trigger_frame oW initMLState "x" "y" "z" true "" "").2.2.1
      (by decide),
   (c8_retrain_trigger_frame oW initMLState "web" "connection refused"
      "systemctl restart web" true "" "").2.1⟩

/-! ## Folding a sequence of `learn_from_attempt` calls -/

/-- Arguments of one `learn_from_attempt` call. -/
structure LearnArgs where
  service : String
  error : String
  command : String
  success : Bool
  stdout : String
  stderr : String
deriving DecidableEq

def mkEntryOf (o : Oracles) (a : LearnArgs) : ErrorEntry :=
  mkEntry o a.service a.error a.command a.success a.stdout a.stderr

/-- A sequence of `learn_from_attempt` calls against one model state. -/
def foldLearn (o : Oracles) (st : MLState) (args : List LearnArgs) : MLState :=
  args.foldl
    (fun s a =>
      learnFromAttempt o s a.service a.error a.command a.success a.stdout
        a.stderr) st

theorem foldLearn_errorData (o : Oracles) :
    ∀ (args : List LearnArgs) (st : MLState),
      (foldLearn o st args).errorData =
        st.errorData ++ args.map (mkEntryOf o) := by
  intro args
  induction args with
  | nil => intro st; simp [foldLearn]
  | cons a t ih =>
    intro st
    have step : foldLearn o st (a :: t) =
        foldLearn o (learnFromAttempt o st a.service a.error a.command
          a.success a.stdout a.stderr) t := rfl
    rw [step, ih, learnFromAttempt_errorData]
    simp [mkEntryOf]

theorem learnFromAttempt_fitted_of_small (o : Oracles) (st : MLState)
    (svc err cmd : String) (success : Bool) (so se : String)
    (h : (st.errorData.length + 1) % 10 ≠ 0) :
    (learnFromAttempt o st svc err cmd success so se).vectorizerFitted =
      st.vectorizerFitted := by
  rw [learnFromAttempt_eq, if_neg h, learnAppend_fitted]

theorem foldLearn_unfitted (o : Oracles) :
    ∀ (args : List LearnArgs) (st : MLState),
      st.vectorizerFitted = false →
      st.errorData.length + args.length ≤ 9 →
      (foldLearn o st args).vectorizerFitted = false := by
  intro args
  induction args with
  | nil => intro st hf _; exact hf
  | cons a t ih =>
    intro st hf hlen
    have step : foldLearn o st (a :: t) =
        foldLearn o (learnFromAttempt o st a.service a.error a.command
          a.success a.stdout a.stderr) t := rfl
    rw [step]
    have hmod : (st.errorData.length + 1) % 10 ≠ 0 := by
      have : st.errorData.length + 1 < 10 := by
        simp only [List.length_cons] at hlen; omega
      rw [Nat.mod_eq_of_lt this]; omega
    refine ih _ ?_ ?_
    · rw [learnFromAttempt_fitted_of_small o st _ _ _ _ _ _ hmod]; exact hf
    · rw [learnFromAttempt_errorData]
      simp only [List.length_append, List.length_singleton,
        List.length_cons, List.length_nil] at hlen ⊢
      omega

/-! ## C10 — the unfitted vectorizer makes the predictor inert -/

theorem collectSimilar_of_unfitted (o : Oracles) (st : MLState)
    (svc ne : String) (hfit : st.vectorizerFitted = false) :
    ∀ l : List ErrorEntry, collectSimilar o st svc ne l = .ok [] := by
  have h07 : ¬ ((0 : ℚ) > 7/10) := by norm_num
  intro l
  induction l with
  | nil => rfl
  | cons e t ih =>
    cases hbe : (e.service == svc) with
    | true => simp [collectSimilar, hbe, calcSimML, hfit, h07, ih]
    | false => simp [collectSimilar, hbe, ih]

/-- **C10.** Starting from a fresh model (nothing loaded from disk), any
run of at most 9 `learn_from_attempt` calls leaves the TF-IDF vectorizer
unfitted — the every-10th-example retrain never fires — so
`_calculate_similarity` returns `0.0` on every pair of strings and
`predict_fix` returns `None` on every query, even when same-service
examples with identical normalized patterns were appended. -/
theorem c10_unfitted_predicts_nothing (o : Oracles) (args : List LearnArgs)
    (svc err x y : String) (h : args.length ≤ 9) :
    calcSimML o (foldLearn o initMLState args) x y = 0 ∧
    predictFix o (foldLearn o initMLState args) svc err = .ok none := by
  have hfit : (foldLearn o initMLState args).vectorizerFitted = false :=
    foldLearn_unfitted o args initMLState rfl (by simpa [initMLState] using h)
  constructor
  · simp [calcSimML, hfit]
  · by_cases hED : (foldLearn o initMLState args).errorData.isEmpty
    · simp [predictFix, hED]
    · simp [predictFix, hED, collectSimilar_of_unfitted o _ _ _ hfit]

/-- Witness for C10: three identical successful same-service examples are
appended, yet the similarity is `0` and the prediction absent. -/
theorem c10_unfitted_predicts_nothing_witness :
    calcSimML oW
      (foldLearn oW initMLState
        (List.replicate 3
          ⟨"web", "connection refused", "systemctl restart web", true, "",
            ""⟩)) "connection refused" "connection refused" = 0 ∧
    predictFix oW
      (foldLearn oW initMLState
        (List.replicate 3
          ⟨"web", "connection refused", "systemctl restart web", true, "",
            ""⟩)) "web" "connection refused" = .ok none :=
  c10_unfitted_predicts_nothing oW _ "web" "connection refused"
    "connection refused" "connection refused" (by decide)

/-! ## C3 — `predict_fix` raises `KeyError` on its success path -/

theorem getKey_success_rate (e : ErrorEntry) :
    e.getKey "success_rate" = none := rfl

/-- Whenever the head of the corpus belongs to the queried service and the
current similarity metric scores it above `0.7`, `predict_fix` evaluates
`error_entry['success_rate']` on an entry that has no such key and raises
`KeyError`, which nothing in `predict_fix` catches. -/
theorem predictFix_keyError_of_head (o : Oracles) (st : MLState)
    (svc err : String) (e : ErrorEntry) (rest : List ErrorEntry)
    (hdata : st.errorData = e :: rest) (hsvc : e.service = svc)
    (hsim : calcSimML o st (normalizeError err) e.normalizedError > 7/10) :
    predictFix o st svc err = .error (.keyError "success_rate") := by
  have hbe : (e.service == svc) = true := by simp [hsvc]
  simp only [predictFix, hdata, List.isEmpty_cons, Bool.false_eq_true,
    if_false, collectSimilar, hbe, if_true, if_pos hsim,
    getKey_success_rate]

/-- **C3 (refuted on the code).** Ten successful `learn_from_attempt` calls
for service `web` with the identical error `connection refused` fit the
vectorizer (the 10th call triggers a retrain); the very next
`predict_fix("web", "connection refused")` finds the stored same-service
example with cosine similarity `1 > 0.7` and raises
`KeyError('success_rate')` — the stored entries carry a `success` flag but
no `success_rate` key — instead of degrading to "no fix found". -/
theorem c3_predict_raises_keyerror :
    predictFix oW
      (foldLearn oW initMLState
        (List.replicate 10
          ⟨"web", "connection refused", "systemctl restart web", true, "",
            ""⟩)) "web" "connection refused" =
      .error (.keyError "success_rate") := by
  have hfit : (foldLearn oW initMLState
      (List.replicate 10
        ⟨"web", "connection refused", "systemctl restart web", true, "",
          ""⟩)).vectorizerFitted = true := by decide
  refine predictFix_keyError_of_head oW _ "web" "connection refused"
    (mkEntryOf oW
      ⟨"web", "connection refused", "systemctl restart web", true, "", ""⟩)
    (List.map (mkEntryOf oW)
      (List.replicate 9
        ⟨"web", "connection refused", "systemctl restart web", true, "", ""⟩))
    ?_ rfl ?_
  · rw [foldLearn_errorData]
    simp [initMLState, List.replicate_succ]
  · rw [calcSimML, if_pos hfit]
    show (1 : ℚ) > 7/10
    norm_num

/-! ## Orchestrator projections and frame lemmas -/

def fixResult : Except PyErr FixOutcome → Option String × String × String
  | .ok out => out.result
  | .error _ => (none, "", "")

theorem bumpFixCounters_ml (st : SysState) (b : Bool) :
    (bumpFixCounters st b).ml = st.ml := by
  unfold bumpFixCounters; split_ifs <;> rfl

theorem bumpFixCounters_learner (st : SysState) (b : Bool) :
    (bumpFixCounters st b).learner = st.learner := by
  unfold bumpFixCounters; split_ifs <;> rfl

theorem bumpFixCounters_fixHistory (st : SysState) (b : Bool) :
    (bumpFixCounters st b).fixHistory = st.fixHistory := by
  unfold bumpFixCounters; split_ifs <;> rfl

/-! ## C4 — tier order: a confident prediction suppresses the AI fallback -/

/-- **C4.** When the Similarity Predictor hands `fix_service` a prediction
with confidence above `0.8`, the only events are the predictor
consultation and one execution of the predicted command — the Known-Fix
Store is not consulted and the external generator is never invoked; and in
general, whatever the predictor returns, the consultations happen in the
fixed order predictor → known-fix store → AI fallback. -/
theorem c4_tier_order (o : Oracles) (st : SysState) (svc err : String)
    (p : Prediction) (hconf : p.confidence > 8/10) :
    fixEvents (fixService o (.ok (some p)) st svc err) =
      [.predictTier, .execRun p.command] ∧
    Event.aiTier ∉ fixEvents (fixService o (.ok (some p)) st svc err) ∧
    (∀ pred : Except PyErr (Option Prediction), ∃ c : String,
      fixEvents (fixService o pred st svc err) ∈
        ([[],
          [.predictTier, .execRun c],
          [.predictTier, .knownFixTier, .execRun c],
          [.predictTier, .knownFixTier, .aiTier, .execRun c],
          [.predictTier, .knownFixTier, .aiTier]] : List (List Event))) := by
  have h1 : fixEvents (fixService o (.ok (some p)) st svc err) =
      [.predictTier, .execRun p.command] := by
    simp [fixService, if_pos hconf, fixEvents]
  have hstep2 : ∃ c : String,
      fixEvents (fixServiceStep2 o st svc err) ∈
        ([[],
          [.predictTier, .execRun c],
          [.predictTier, .knownFixTier, .execRun c],
          [.predictTier, .knownFixTier, .aiTier, .execRun c],
          [.predictTier, .knownFixTier, .aiTier]] : List (List Event)) := by
    unfold fixServiceStep2
    cases hkf : findKnownFix st.learner svc err with
    | some kf => exact ⟨kf, by simp [fixEvents]⟩
    | none =>
      unfold callAiForFix
      cases hai : o.aiOutcome with
      | timeout => exact ⟨"", by simp [fixEvents]⟩
      | noContent => exact ⟨"", by simp [fixEvents]⟩
      | content c =>
        cases hc : (c == "") with
        | true => exact ⟨"", by simp [fixEvents, hc]⟩
        | false => exact ⟨stripStr c, by simp [fixEvents, hc]⟩
  refine ⟨h1, by rw [h1]; simp, ?_⟩
  intro pred
  match pred with
  | .error e => exact ⟨"", by simp [fixService, fixEvents]⟩
  | .ok none => simpa [fixService] using hstep2
  | .ok (some q) =>
    by_cases hq : q.confidence > 8/10
    · exact ⟨q.command, by simp [fixService, if_pos hq, fixEvents]⟩
    · simpa [fixService, if_neg hq] using hstep2

/-- Witness for C4 at a concrete confident prediction on fresh state. -/
theorem c4_tier_order_witness :
    fixEvents (fixService oW
      (.ok (some ⟨"systemctl restart web", 1, .b true, "ml_prediction"⟩))
      initSys "web" "connection refused") =
      [.predictTier, .execRun "systemctl restart web"] ∧
    Event.aiTier ∉ fixEvents (fixService oW
      (.ok (some ⟨"systemctl restart web", 1, .b true, "ml_prediction"⟩))
      initSys "web" "connection refused") :=
  ⟨(c4_tier_order oW initSys "web" "connection refused"
      ⟨"systemctl restart web", 1, .b true, "ml_prediction"⟩
      (by norm_num)).1,
   (c4_tier_order oW initSys "web" "connection refused"
      ⟨"systemctl restart web", 1, .b true, "ml_prediction"⟩
      (by norm_num)).2.1⟩

/-! ## C6 — behaviour of the EXHAUSTED (AI-failure) paths -/

/-- **C6 (amended).** When the AI tier is reached (no usable prediction,
no known fix) and the Gemini call times out or yields no content, the
three-tier orchestrator executes nothing, leaves both learning stores and
the history untouched (only the `ai_calls` counter moves), and returns
`(None, "", "Failed to generate fix")` — the same generic reason in both
cases; the specific causes appear only in the log.  The legacy two-tier
`ai_fix_service` is the path that returns the distinct reasons
`"Gemini API call timed out"` / `"No response content"`, with an absent
(`None`), not empty, stdout. -/
theorem c6_exhausted_paths (o : Oracles) (st : SysState) (svc err : String)
    (hkf : findKnownFix st.learner svc err = none) :
    (o.aiOutcome = .timeout →
      fixService o (.ok none) st svc err =
        .ok { state := { st with aiCalls := st.aiCalls + 1 }
              result := (none, "", "Failed to generate fix")
              events := [.predictTier, .knownFixTier, .aiTier]
              log := ["Using AI fallback for " ++ svc,
                      "Gemini fix timed out for " ++ svc] }) ∧
    (o.aiOutcome = .noContent →
      fixService o (.ok none) st svc err =
        .ok { state := { st with aiCalls := st.aiCalls + 1 }
              result := (none, "", "Failed to generate fix")
              events := [.predictTier, .knownFixTier, .aiTier]
              log := ["Using AI fallback for " ++ svc,
                      "Gemini fix failed for " ++ svc ++
                        ": No response content"] }) ∧
    (o.aiOutcome = .timeout →
      aiFixService o st.learner svc err =
        (st.learner, (none, none, "Gemini API call timed out"), [.aiTier],
         ["Gemini fix timed out for " ++ svc])) ∧
    (o.aiOutcome = .noContent →
      aiFixService o st.learner svc err =
        (st.learner, (none, none, "No response content"), [.aiTier],
         ["Gemini fix failed for " ++ svc ++ ": No response content"])) := by
  refine ⟨?_, ?_, ?_, ?_⟩ <;> intro hai
  · simp [fixService, fixServiceStep2, hkf, callAiForFix, hai]
  · simp [fixService, fixServiceStep2, hkf, callAiForFix, hai]
  · simp [aiFixService, hkf, hai]
  · simp [aiFixService, hkf, hai]

def oNC : Oracles := { oW with aiOutcome := .noContent }

/-- Witness for C6 at concrete fresh state: both failure modes of both
orchestrators, with `oW` timing out and `oNC` returning no content. -/
theorem c6_exhausted_paths_witness :
    fixService oW (.ok none) initSys "web" "connection refused" =
      .ok { state := { initSys with aiCalls := 1 }
            result := (none, "", "Failed to generate fix")
            events := [.predictTier, .knownFixTier, .aiTier]
            log := ["Using AI fallback for web",
                    "Gemini fix timed out for web"] } ∧
    fixService oNC (.ok none) initSys "web" "connection refused" =
      .ok { state := { initSys with aiCalls := 1 }
            result := (none, "", "Failed to generate fix")
            events := [.predictTier, .knownFixTier, .aiTier]
            log := ["Using AI fallback for web",
                    "Gemini fix failed for web: No response content"] } ∧
    aiFixService oW initLearner "web" "connection refused" =
      (initLearner, (none, none, "Gemini API call timed out"), [.aiTier],
       ["Gemini fix timed out for web"]) :=
  ⟨(c6_exhausted_paths oW initSys "web" "connection refused" rfl).1 rfl,
   (c6_exhausted_paths oNC initSys "web" "connection refused" rfl).2.1 rfl,
   (c6_exhausted_paths oW initSys "web" "connection refused" rfl).2.2.1 rfl⟩

/-- **C6 (counterexample to the claim as stated).** On the deadline-exceeded
path the three-tier orchestrator's returned failure reason is the generic
`"Failed to generate fix"`, not `"timed out"`. -/
theorem c6_counterexample :
    fixResult (fixService oW (.ok none) initSys "web" "connection refused") =
      (none, "", "Failed to generate fix") ∧
    "Failed to generate fix" ≠ "timed out" := by
  constructor
  · rfl
  · decide

/-! ## C7 — feedback, history tag, and the returned triple per tier -/

/-- **C7 (amended).** Every branch that executes a command feeds the
outcome (success defined by the executor's zero exit status) into both the
Known-Fix Store and the Similarity Predictor, appends one `FixAttempt`
record with the branch's method tag, and returns the executed command —
with the executor's stdout/stderr in the `ml_prediction` and `known_fix`
branches, but with the AI wrapper's empty stdout/stderr (the executor's
output is discarded, and the learners are likewise fed the empty strings)
in the `ai_fallback` branch. -/
theorem c7_feedback_per_tier (o : Oracles) (st : SysState)
    (svc err : String) :
    (∀ p : Prediction, p.confidence > 8/10 →
      ∃ out, fixService o (.ok (some p)) st svc err = .ok out ∧
        out.state.ml = learnFromAttempt o st.ml svc err p.command
          ((o.exec p.command).returncode == 0) (o.exec p.command).stdout
          (o.exec p.command).stderr ∧
        out.state.learner = learnFix o.now st.learner svc err p.command
          ((o.exec p.command).returncode == 0) (o.exec p.command).stdout
          (o.exec p.command).stderr ∧
        out.state.fixHistory = st.fixHistory ++
          [⟨svc, err, p.command, (o.exec p.command).returncode == 0,
            o.elapsed, "ml_prediction", o.wallTime⟩] ∧
        out.result =
          (some p.command, (o.exec p.command).stdout,
           (o.exec p.command).stderr)) ∧
    (∀ kf, findKnownFix st.learner svc err = some kf →
      ∃ out, fixService o (.ok none) st svc err = .ok out ∧
        out.state.ml = learnFromAttempt o st.ml svc err kf
          ((o.exec kf).returncode == 0) (o.exec kf).stdout
          (o.exec kf).stderr ∧
        out.state.learner = learnFix o.now st.learner svc err kf
          ((o.exec kf).returncode == 0) (o.exec kf).stdout
          (o.exec kf).stderr ∧
        out.state.fixHistory = st.fixHistory ++
          [⟨svc, err, kf, (o.exec kf).returncode == 0, o.elapsed,
            "known_fix", o.wallTime⟩] ∧
        out.result = (some kf, (o.exec kf).stdout, (o.exec kf).stderr)) ∧
    (∀ c, findKnownFix st.learner svc err = none →
      o.aiOutcome = .content c → (c == "") = false →
      ∃ out, fixService o (.ok none) st svc err = .ok out ∧
        out.state.ml = learnFromAttempt o st.ml svc err (stripStr c)
          ((o.exec (stripStr c)).returncode == 0) "" "" ∧
        out.state.learner = learnFix o.now st.learner svc err (stripStr c)
          ((o.exec (stripStr c)).returncode == 0) "" "" ∧
        out.state.fixHistory = st.fixHistory ++
          [⟨svc, err, stripStr c, (o.exec (stripStr c)).returncode == 0,
            o.elapsed, "ai_fallback", o.wallTime⟩] ∧
        out.result = (some (stripStr c), "", "")) := by
  refine ⟨?_, ?_, ?_⟩
  · intro p hconf
    simp only [fixService]
    rw [if_pos hconf]
    refine ⟨_, rfl, ?_, ?_, ?_, rfl⟩ <;>
      simp [bumpFixCounters_ml, bumpFixCounters_learner,
        bumpFixCounters_fixHistory]
  · intro kf hkf
    simp only [fixService, fixServiceStep2, hkf]
    refine ⟨_, rfl, ?_, ?_, ?_, rfl⟩ <;>
      simp [bumpFixCounters_ml, bumpFixCounters_learner,
        bumpFixCounters_fixHistory]
  · intro c hkf hai hc
    simp only [fixService, fixServiceStep2, hkf, callAiForFix, hai, hc,
      Bool.false_eq_true, if_false]
    refine ⟨_, rfl, ?_, ?_, ?_, rfl⟩ <;>
      simp [bumpFixCounters_ml, bumpFixCounters_learner,
        bumpFixCounters_fixHistory]

def oOut : Oracles :=
  { oW with aiOutcome := .content "systemctl restart web"
            exec := fun _ => ⟨0, "OUT", "ERR"⟩ }

/-- Witness for C7: the known-fix branch on a concrete store returns the
executor's output, and the AI branch on a fresh store returns the empty
strings. -/
theorem c7_feedback_per_tier_witness :
    (∃ out, fixService oOut (.ok none)
        { initSys with learner :=
            ⟨[("connection refused",
               ⟨"cmd-known", "web", "t", "t", 1, "", ""⟩)], []⟩ }
        "web" "connection refused" = .ok out ∧
      out.state.fixHistory = [⟨"web", "connection refused", "cmd-known",
        true, 0, "known_fix", 0⟩] ∧
      out.result = (some "cmd-known", "OUT", "ERR")) ∧
    (∃ out, fixService oOut (.ok none) initSys "web" "connection refused" =
        .ok out ∧
      out.state.fixHistory = [⟨"web", "connection refused",
        "systemctl restart web", true, 0, "ai_fallback", 0⟩] ∧
      out.result = (some "systemctl restart web", "", "")) := by
  constructor
  · obtain ⟨out, heq, _, _, hh, hr⟩ :=
      (c7_feedback_per_tier oOut
        { initSys with learner :=
            ⟨[("connection refused",
               ⟨"cmd-known", "web", "t", "t", 1, "", ""⟩)], []⟩ }
        "web" "connection refused").2.1 "cmd-known" (by decide)
    exact ⟨out, heq, by simpa using hh, by simpa using hr⟩
  · obtain ⟨out, heq, _, _, hh, hr⟩ :=
      (c7_feedback_per_tier oOut initSys "web" "connection refused").2.2
        "systemctl restart web" rfl rfl (by decide)
    refine ⟨out, heq, ?_, by simpa using hr⟩
    simpa using hh

/-- **C7 (counterexample to the claim as stated).** In the `ai_fallback`
branch the returned stdout/stderr are the AI wrapper's empty strings, not
the executor's `"OUT"`/`"ERR"` output for that execution. -/
theorem c7_counterexample :
    fixResult (fixService oOut (.ok none) initSys "web" "connection refused") =
      (some "systemctl restart web", "", "") ∧
    (oOut.exec "systemctl restart web").stdout = "OUT" ∧
    ("" : String) ≠ "OUT" := by
  refine ⟨rfl, rfl, by decide⟩

/-! ## Generic lemmas about the `re.sub` scan -/

/-- If the matcher fails at every suffix, the substitution is the
identity. -/
theorem rsubAux_eq_self (m : List Char → Option Nat) (repl : List Char) :
    ∀ (fuel : Nat) (l : List Char),
      (∀ l', l' <:+ l → m l' = none) → rsubAux m repl fuel l = l := by
  intro fuel
  induction fuel with
  | zero => intro l _; cases l <;> rfl
  | succ fuel ih =>
    intro l h
    cases l with
    | nil => rfl
    | cons c cs =>
      have hm : m (c :: cs) = none := h _ (List.suffix_refl _)
      simp only [rsubAux, hm]
      exact congrArg (c :: ·) (ih cs fun l' hl' =>
        h l' (hl'.trans (List.suffix_cons c cs)))

/-- If every match the matcher reports equals the replacement text, the
substitution is the identity. -/
theorem rsubAux_eq_self_of_matches_id (m : List Char → Option Nat)
    (repl : List Char) :
    ∀ (fuel : Nat) (l : List Char), l.length ≤ fuel →
      (∀ l' k, l' <:+ l → m l' = some k → repl = l'.take k ∧ k ≠ 0) →
      rsubAux m repl fuel l = l := by
  intro fuel
  induction fuel with
  | zero =>
    intro l hlen _
    interval_cases h : l.length
    · exact (List.length_eq_zero.mp h) ▸ rfl
  | succ fuel ih =>
    intro l hlen h
    cases l with
    | nil => rfl
    | cons c cs =>
      have hlen' : cs.length ≤ fuel := by
        simp only [List.length_cons] at hlen; omega
      cases hm : m (c :: cs) with
      | none =>
        simp only [rsubAux, hm]
        refine congrArg (c :: ·) (ih cs hlen' ?_)
        intro l' k hl' hk
        exact h l' k (hl'.trans (List.suffix_cons c cs)) hk
      | some k =>
        obtain ⟨hrepl, hk0⟩ := h _ _ (List.suffix_refl _) hm
        cases k with
        | zero => exact absurd rfl hk0
        | succ k' =>
          simp only [rsubAux, hm]
          have hdrop : cs.drop k' = (c :: cs).drop (k' + 1) := rfl
          have hrec : rsubAux m repl fuel (cs.drop k') = cs.drop k' := by
            refine ih _ ?_ ?_
            · have hd : (cs.drop k').length ≤ cs.length :=
                (List.length_drop k' cs) ▸ Nat.sub_le _ _
              exact le_trans hd hlen'
            · intro l' k hl' hk
              refine h l' k ?_ hk
              exact hl'.trans ((List.drop_suffix k' cs).trans
                (List.suffix_cons c cs))
          rw [hrec, hrepl, hdrop, List.take_append_drop]

/-- Every character of the output comes from the input or from the
replacement text. -/
theorem rsubAux_mem (m : List Char → Option Nat) (repl : List Char) :
    ∀ (fuel : Nat) (l : List Char) (x : Char),
      x ∈ rsubAux m repl fuel l → x ∈ l ∨ x ∈ repl := by
  intro fuel
  induction fuel with
  | zero =>
    intro l x hx
    cases l with
    | nil => exact absurd hx (by simp [rsubAux])
    | cons c cs => exact Or.inl hx
  | succ fuel ih =>
    intro l x hx
    cases l with
    | nil => exact absurd hx (by simp [rsubAux])
    | cons c cs =>
      revert hx
      cases hm : m (c :: cs) with
      | none =>
        intro hx
        simp only [rsubAux, hm, List.mem_cons] at hx
        rcases hx with rfl | hx
        · exact Or.inl (List.mem_cons_self _ _)
        · rcases ih cs x hx with h | h
          · exact Or.inl (List.mem_cons_of_mem _ h)
          · exact Or.inr h
      | some k =>
        cases k with
        | zero =>
          intro hx
          simp only [rsubAux, hm, List.mem_cons] at hx
          rcases hx with rfl | hx
          · exact Or.inl (List.mem_cons_self _ _)
          · rcases ih cs x hx with h | h
            · exact Or.inl (List.mem_cons_of_mem _ h)
            · exact Or.inr h
        | succ k' =>
          intro hx
          simp only [rsubAux, hm, List.mem_append] at hx
          rcases hx with h | hx
          · exact Or.inr h
          · rcases ih _ x hx with h | h
            · exact Or.inl (List.mem_cons_of_mem _
                ((List.drop_suffix k' cs).subset h))
            · exact Or.inr h

/-! ## Digit-freeness of normalized patterns -/

/-- The output of the `\d+ → [NUMBER]` substitution contains no digit. -/
theorem numSub_noDigit :
    ∀ (fuel : Nat) (l : List Char), l.length ≤ fuel →
      ∀ c ∈ rsubAux mNum "[NUMBER]".data fuel l, isDigitC c = false := by
  intro fuel
  induction fuel with
  | zero =>
    intro l hlen c hc
    interval_cases h : l.length
    · rw [List.length_eq_zero.mp h] at hc
      exact absurd hc (by simp [rsubAux])
  | succ fuel ih =>
    intro l hlen c hc
    cases l with
    | nil => exact absurd hc (by simp [rsubAux])
    | cons a cs =>
      have hlen' : cs.length ≤ fuel :=
        Nat.le_of_succ_le_succ (by simpa [List.length_cons] using hlen)
      revert hc
      cases hd : isDigitC a with
      | false =>
        have hm : mNum (a :: cs) = none := by simp [mNum, hd]
        intro hc
        simp only [rsubAux, hm, List.mem_cons] at hc
        rcases hc with rfl | hc
        · exact hd
        · exact ih cs hlen' c hc
      | true =>
        have hm : mNum (a :: cs) =
            some ((cs.takeWhile isDigitC).length + 1) := by
          simp [mNum, hd, runLen, List.takeWhile_cons]
        intro hc
        simp only [rsubAux, hm, List.mem_append] at hc
        rcases hc with h | hc
        · exact (by decide : ∀ a ∈ "[NUMBER]".data, isDigitC a = false) c h
        · refine ih _ ?_ c hc
          calc (cs.drop (cs.takeWhile isDigitC).length).length
              ≤ cs.length := (List.length_drop _ cs) ▸ Nat.sub_le _ _
            _ ≤ fuel := hlen'

/-- Characters survive `stripL` only from the input. -/
theorem mem_stripL (l : List Char) (x : Char) (hx : x ∈ stripL l) : x ∈ l := by
  have hsub : ∀ (p : Char → Bool) (t : List Char), t.dropWhile p ⊆ t := by
    intro p t
    induction t with
    | nil => simp
    | cons a t ih =>
      by_cases hp : p a = true
      · simp only [List.dropWhile_cons, hp, if_true]
        exact ih.trans (List.subset_cons_self a t)
      · simp [List.dropWhile_cons, hp]
  simp only [stripL, List.mem_reverse] at hx
  have h1 := hsub isWsC _ hx
  rw [List.mem_reverse] at h1
  exact hsub isWsC _ h1

/-- A normalized pattern contains no digit: the `[NUMBER]` pass removes
every digit run, and the later passes introduce none. -/
theorem extract_noDigit (x : String) :
    ∀ c ∈ (extractErrorPattern x).data, isDigitC c = false := by
  intro c hc
  have h1 : ∀ a ∈ numSub (pathSub (tsSub (x.data.map lowerChar))),
      isDigitC a = false := fun a ha =>
    numSub_noDigit _ _ le_rfl a ha
  have h2 : ∀ a ∈ hashSub (numSub (pathSub (tsSub (x.data.map lowerChar)))),
      isDigitC a = false := by
    intro a ha
    rcases rsubAux_mem mHash "[HASH]".data _ _ a ha with h | h
    · exact h1 a h
    · exact (by decide : ∀ b ∈ "[HASH]".data, isDigitC b = false) a h
  have h3 : ∀ a ∈ wsSub (hashSub (numSub (pathSub (tsSub
      (x.data.map lowerChar))))), isDigitC a = false := by
    intro a ha
    rcases rsubAux_mem mWS " ".data _ _ a ha with h | h
    · exact h2 a h
    · exact (by decide : ∀ b ∈ " ".data, isDigitC b = false) a h
  exact h3 c (mem_stripL _ c hc)

/-! ## Conditions under which each normalization pass is the identity -/

theorem mTS_head_digit {l : List Char} {k : Nat} (h : mTS l = some k) :
    ∃ a t, l = a :: t ∧ isDigitC a = true := by
  unfold mTS at h
  split at h
  · split_ifs at h with hg
    exact ⟨_, _, rfl, hg.1⟩
  · exact absurd h (by simp)

theorem mNum_head_digit {l : List Char} {k : Nat} (h : mNum l = some k) :
    ∃ a t, l = a :: t ∧ isDigitC a = true := by
  unfold mNum at h
  split at h
  · split_ifs at h with hg
    exact ⟨_, _, rfl, hg⟩
  · exact absurd h (by simp)

theorem tsSub_eq_self (l : List Char)
    (h : ∀ c ∈ l, isDigitC c = false) : tsSub l = l := by
  refine rsubAux_eq_self _ _ _ _ ?_
  intro l' hl'
  cases hm : mTS l' with
  | none => rfl
  | some k =>
    obtain ⟨a, t, rfl, ha⟩ := mTS_head_digit hm
    exact absurd (h a (hl'.subset (List.mem_cons_self a t)))
      (by simp [ha])

theorem numSub_eq_self (l : List Char)
    (h : ∀ c ∈ l, isDigitC c = false) : numSub l = l := by
  refine rsubAux_eq_self _ _ _ _ ?_
  intro l' hl'
  cases hm : mNum l' with
  | none => rfl
  | some k =>
    obtain ⟨a, t, rfl, ha⟩ := mNum_head_digit hm
    exact absurd (h a (hl'.subset (List.mem_cons_self a t)))
      (by simp [ha])

/-- No `/` immediately followed by a `[\w/.-]` character. -/
def noSlashPair : List Char → Bool
  | a :: b :: t => !(a == '/' && isPathC b) && noSlashPair (b :: t)
  | _ => true

theorem noSlashPair_tail {a : Char} {t : List Char}
    (h : noSlashPair (a :: t) = true) : noSlashPair t = true := by
  cases t with
  | nil => rfl
  | cons b t' =>
    simp only [noSlashPair, Bool.and_eq_true] at h
    exact h.2

theorem noSlashPair_suffix :
    ∀ (pre l' : List Char), noSlashPair (pre ++ l') = true →
      noSlashPair l' = true := by
  intro pre
  induction pre with
  | nil => intro l' h; exact h
  | cons a pre ih =>
    intro l' h
    exact ih l' (noSlashPair_tail h)

theorem mPath_eq_none {l : List Char} (h : noSlashPair l = true) :
    mPath l = none := by
  cases l with
  | nil => rfl
  | cons c cs =>
    cases hc : (c == '/') with
    | false =>
      unfold mPath
      split
      · next cs' heq =>
        rw [show c = '/' from (List.cons.injEq .. ▸ heq).1] at hc
        simp at hc
      · rfl
    | true =>
      rw [show c = '/' from by simpa using hc]
      rw [show c = '/' from by simpa using hc] at h
      cases cs with
      | nil => rfl
      | cons d t =>
        simp only [noSlashPair, Bool.and_eq_true, Bool.not_eq_true',
          Bool.and_eq_false_iff] at h
        have hd : isPathC d = false := by
          rcases h.1 with h1 | h1
          · simp at h1
          · exact h1
        show mPath ('/' :: d :: t) = none
        simp [mPath, runLen, List.takeWhile_cons, hd]

theorem pathSub_eq_self (l : List Char) (h : noSlashPair l = true) :
    pathSub l = l := by
  refine rsubAux_eq_self _ _ _ _ ?_
  intro l' hl'
  obtain ⟨pre, rfl⟩ := hl'
  exact mPath_eq_none (noSlashPair_suffix pre l' h)

/-- Scan bound: with `k` hex characters immediately preceding, every hex
run ahead keeps the total strictly below 8. -/
def hexRunBound : Nat → List Char → Bool
  | _, [] => true
  | k, c :: t =>
    if isHexC c then decide (k + 1 < 8) && hexRunBound (k + 1) t
    else hexRunBound 0 t

theorem hexRunBound_runLen :
    ∀ (l : List Char) (k : Nat), hexRunBound k l = true →
      runLen isHexC l = 0 ∨ runLen isHexC l + k < 8 := by
  intro l
  induction l with
  | nil => intro k _; exact Or.inl rfl
  | cons c t ih =>
    intro k h
    cases hc : isHexC c with
    | false =>
      left
      simp [runLen, List.takeWhile_cons, hc]
    | true =>
      simp only [hexRunBound, hc, if_true, Bool.and_eq_true,
        decide_eq_true_eq] at h
      have hrun : runLen isHexC (c :: t) = runLen isHexC t + 1 := by
        simp [runLen, List.takeWhile_cons, hc]
      rcases ih (k + 1) h.2 with h0 | hlt
      · right; rw [hrun, h0]; omega
      · right; rw [hrun]; omega

theorem hexRunBound_tail {k : Nat} {c : Char} {t : List Char}
    (h : hexRunBound k (c :: t) = true) :
    ∃ k', hexRunBound k' t = true := by
  cases hc : isHexC c with
  | false =>
    simp only [hexRunBound, hc, if_false] at h
    exact ⟨0, h⟩
  | true =>
    simp only [hexRunBound, hc, if_true, Bool.and_eq_true] at h
    exact ⟨k + 1, h.2⟩

theorem hexRunBound_suffix :
    ∀ (pre l' : List Char) (k : Nat), hexRunBound k (pre ++ l') = true →
      ∃ k', hexRunBound k' l' = true := by
  intro pre
  induction pre with
  | nil => intro l' k h; exact ⟨k, h⟩
  | cons a pre ih =>
    intro l' k h
    obtain ⟨k1, h1⟩ := hexRunBound_tail h
    exact ih l' k1 h1

theorem mHash_eq_none {l : List Char} (h : ∃ k, hexRunBound k l = true) :
    mHash l = none := by
  obtain ⟨k, hk⟩ := h
  cases l with
  | nil => rfl
  | cons c cs =>
    cases hc : isHexC c with
    | false => simp [mHash, hc]
    | true =>
      have hrun : runLen isHexC (c :: cs) < 8 := by
        rcases hexRunBound_runLen (c :: cs) k hk with h0 | hlt
        · simp [runLen, List.takeWhile_cons, hc] at h0
        · omega
      simp [mHash, hc, Nat.not_le.mpr hrun]

theorem hashSub_eq_self (l : List Char) (h : hexRunBound 0 l = true) :
    hashSub l = l := by
  refine rsubAux_eq_self _ _ _ _ ?_
  intro l' hl'
  obtain ⟨pre, rfl⟩ := hl'
  exact mHash_eq_none (hexRunBound_suffix pre l' 0 h)

/-- Every whitespace character is a plain space. -/
def allWsSpace (l : List Char) : Bool := l.all fun c => !isWsC c || (c == ' ')

/-- No two adjacent whitespace characters. -/
def noAdjWs : List Char → Bool
  | a :: b :: t => !(isWsC a && isWsC b) && noAdjWs (b :: t)
  | _ => true

theorem noAdjWs_tail {a : Char} {t : List Char}
    (h : noAdjWs (a :: t) = true) : noAdjWs t = true := by
  cases t with
  | nil => rfl
  | cons b t' =>
    simp only [noAdjWs, Bool.and_eq_true] at h
    exact h.2

theorem noAdjWs_suffix :
    ∀ (pre l' : List Char), noAdjWs (pre ++ l') = true →
      noAdjWs l' = true := by
  intro pre
  induction pre with
  | nil => intro l' h; exact h
  | cons a pre ih => intro l' h; exact ih l' (noAdjWs_tail h)

theorem wsSub_eq_self (l : List Char) (hall : allWsSpace l = true)
    (hadj : noAdjWs l = true) : wsSub l = l := by
  refine rsubAux_eq_self_of_matches_id _ _ _ _ le_rfl ?_
  intro l' k hl' hm
  cases l' with
  | nil => exact absurd hm (by simp [mWS])
  | cons c cs =>
    have hcmem : c ∈ l := hl'.subset (List.mem_cons_self c cs)
    have hadj' : noAdjWs (c :: cs) = true := by
      obtain ⟨pre, rfl⟩ := hl'
      exact noAdjWs_suffix pre _ hadj
    cases hw : isWsC c with
    | false =>
      simp only [mWS, hw, if_false] at hm
      exact absurd hm (by simp)
    | true =>
      have hsp : c = ' ' := by
        have h1 := List.all_eq_true.mp hall c hcmem
        simp only [hw, Bool.not_true, Bool.false_or, beq_iff_eq] at h1
        exact h1
      have hrun : runLen isWsC (c :: cs) = 1 := by
        cases cs with
        | nil => simp [runLen, List.takeWhile_cons, hw]
        | cons d t =>
          have hd : isWsC d = false := by
            simp only [noAdjWs, Bool.and_eq_true, Bool.not_eq_true',
              Bool.and_eq_false_iff] at hadj'
            rcases hadj'.1 with h1 | h1
            · rw [hw] at h1; simp at h1
            · exact h1
          simp [runLen, List.takeWhile_cons, hw, hd]
      simp only [mWS, hw, if_true] at hm
      have hkr : runLen isWsC (c :: cs) = k := Option.some.inj hm
      have hk : k = 1 := by rw [← hkr, hrun]
      refine ⟨?_, by rw [hk]; exact one_ne_zero⟩
      rw [hk, hsp]
      rfl

theorem stripL_eq_self (l : List Char)
    (hhead : l.head?.all (fun c => !isWsC c) = true)
    (hlast : l.getLast?.all (fun c => !isWsC c) = true) : stripL l = l := by
  have hdw : ∀ (t : List Char),
      t.head?.all (fun c => !isWsC c) = true → t.dropWhile isWsC = t := by
    intro t ht
    cases t with
    | nil => rfl
    | cons c cs =>
      simp only [List.head?_cons, Option.all_some, Bool.not_eq_true'] at ht
      simp [List.dropWhile_cons, ht]
  unfold stripL
  rw [hdw l hhead]
  rw [hdw l.reverse (by rw [List.head?_reverse]; exact hlast)]
  exact List.reverse_reverse l

/-! ## C2 — amended idempotence of pattern normalization -/

/-- **C2 (amended).** Normalization is idempotent exactly on the inputs
whose normalized pattern is left untouched by a second pass: whenever the
normalized pattern contains no uppercase character (no placeholder token
was inserted — placeholders are the only uppercase source), no slash
followed by a `[\w/.-]` character, no run of 8 or more `[a-f0-9]`
characters, only plain single spaces as whitespace, and no leading or
trailing whitespace, then `normalize (normalize x) = normalize x`.
Digit-freeness of the normalized pattern — which silences the timestamp
and number passes — holds unconditionally (`extract_noDigit`).  On inputs
whose pattern does contain a placeholder, re-normalization lower-cases the
token and idempotence fails. -/
theorem c2_idempotent_amended (x : String)
    (h1 : (extractErrorPattern x).data.map lowerChar =
      (extractErrorPattern x).data)
    (h2 : noSlashPair (extractErrorPattern x).data = true)
    (h3 : hexRunBound 0 (extractErrorPattern x).data = true)
    (h4 : allWsSpace (extractErrorPattern x).data = true)
    (h5 : noAdjWs (extractErrorPattern x).data = true)
    (h6 : (extractErrorPattern x).data.head?.all (fun c => !isWsC c) = true)
    (h7 : (extractErrorPattern x).data.getLast?.all (fun c => !isWsC c) =
      true) :
    extractErrorPattern (extractErrorPattern x) = extractErrorPattern x := by
  have hnd := extract_noDigit x
  show (⟨stripL (wsSub (hashSub (numSub (pathSub (tsSub
    ((extractErrorPattern x).data.map lowerChar))))))⟩ : String) =
    extractErrorPattern x
  rw [h1, tsSub_eq_self _ hnd, pathSub_eq_self _ h2, numSub_eq_self _ hnd,
    hashSub_eq_self _ h3, wsSub_eq_self _ h4 h5, stripL_eq_self _ h6 h7]

/-- Witness for C2 (amended) on an input that is reshaped (lower-cased,
whitespace-collapsed) but receives no placeholder. -/
theorem c2_idempotent_amended_witness :
    extractErrorPattern (extractErrorPattern "Connection   REFUSED  now") =
      extractErrorPattern "Connection   REFUSED  now" :=
  c2_idempotent_amended "Connection   REFUSED  now" (by decide) (by decide)
    (by decide) (by decide) (by decide) (by decide) (by decide)

end SSM
